import Mathlib

/-!
Verification development for the `spin_booking` repository
(`src/booking_bot.py`, `src/bot_runner.py`).

The Python program drives a browser through a login / navigate /
select-session / select-bike sequence, retried up to a configured number
of times.  This file gives a shallow embedding of that control flow:

* browser interactions are abstracted by per-step behaviour records that
  say which element lookups succeed, which raise which Python exception
  class, and what text the page shows;
* Python exceptions are the `PyExc` type, threaded with `Except`;
  the `except (NoSuchElementException, TimeoutException)` clauses of the
  source correspond to the `PyExc.caught` predicate;
* observable effects (driver start/stop, the login page navigation,
  log lines, sleeps) are recorded in an explicit event trace;
* wall-clock reads (`datetime.now()`) become an explicit `Now` argument.
-/

namespace SpinBooking

/-- Python exception classes relevant to the source.  `noSuchElement`
and `timeout` are `NoSuchElementException` / `TimeoutException` from
`selenium.common.exceptions`; `typeError` is Python's `TypeError`
(raised e.g. by `"x" in None`); `other` stands for any further
exception class (e.g. other `WebDriverException` subclasses). -/
inductive PyExc where
  | noSuchElement
  | timeout
  | typeError
  | other
deriving DecidableEq, Repr

/-- Which exceptions the source's `except (NoSuchElementException,
TimeoutException)` clauses intercept. -/
def PyExc.caught : PyExc → Bool
  | .noSuchElement => true
  | .timeout => true
  | .typeError => false
  | .other => false

/-- Stand-in for Python's `str(e)` used in the f-string error messages. -/
def PyExc.text : PyExc → String
  | .noSuchElement => "NoSuchElementException"
  | .timeout => "TimeoutException"
  | .typeError => "TypeError"
  | .other => "WebDriverException"

/-- `leadEq pat s`: `pat` is an initial segment of `s`. -/
def leadEq : List Char → List Char → Bool
  | [], _ => true
  | _ :: _, [] => false
  | a :: as, b :: bs => a == b && leadEq as bs

/-- `occursIn pat s`: `pat` occurs contiguously somewhere in `s`. -/
def occursIn (pat : List Char) : List Char → Bool
  | [] => leadEq pat []
  | c :: rest => leadEq pat (c :: rest) || occursIn pat rest

/-- Python's substring test `pat in s` on strings. -/
def subMatch (pat s : String) : Bool :=
  occursIn pat.toList s.toList

/-! ## Clock Gate: `BookingBot.is_time_to_book` -/

/-- The fields of `datetime.now()` that `is_time_to_book` reads:
`now.strftime('%A')` (the weekday name), `now.hour`, `now.minute`. -/
structure Now where
  weekdayName : String
  hour : Nat
  minute : Nat

/-- The configuration fields read by `is_time_to_book`
(`config['booking_day']`, `config['booking_hour']`,
`config['booking_minute_start']`, `config['booking_minute_end']`). -/
structure BookingWindow where
  booking_day : String
  booking_hour : Nat
  booking_minute_start : Nat
  booking_minute_end : Nat

/-- `BookingBot.is_time_to_book` (src/booking_bot.py lines 32-60), with
the `datetime.now()` read made an explicit argument.  Mirrors the
nested `if` structure of the source: first the weekday-name comparison,
then `now.hour == booking_hour and booking_minute_start <= now.minute
<= booking_minute_end`. -/
def is_time_to_book (now : Now) (w : BookingWindow) : Bool :=
  if now.weekdayName = w.booking_day then
    if now.hour = w.booking_hour ∧
        w.booking_minute_start ≤ now.minute ∧ now.minute ≤ w.booking_minute_end then
      true
    else
      false
  else
    false

/-! ## Pre-window polling: the waiting loop in `bot_runner.main` -/

/-- Observable events of the waiting loop: the i-th gate evaluation
with its result, and a `time.sleep` with its duration in seconds. -/
inductive PollEvent where
  | gateCheck (i : Nat) (res : Bool)
  | pollSleep (secs : Nat)
deriving DecidableEq, Repr

/-- Recursive core of the waiting loop.  `gate k` is the outcome of the
k-th `is_time_to_book()` evaluation (0-indexed); `fuel` is the number
of further failed iterations permitted before `time_check_count >=
time_check_limit` fires.  Each iteration evaluates the gate; on `false`
it sleeps 60 seconds, increments the counter, and exits with failure
once the counter reaches the limit. -/
def waitFrom (gate : Nat → Bool) : Nat → Nat → List PollEvent × Bool
  | fuel, k =>
    if gate k then
      ([PollEvent.gateCheck k true], true)
    else
      match fuel with
      | 0 => ([PollEvent.gateCheck k false, PollEvent.pollSleep 60], false)
      | f + 1 =>
        let rest := waitFrom gate f (k + 1)
        (PollEvent.gateCheck k false :: PollEvent.pollSleep 60 :: rest.1, rest.2)

/-- The waiting `while` loop at the top of `main` in src/bot_runner.py
(lines 23-35): `time_check_count` starts at 0 and the loop returns
(failure) when it reaches `time_check_limit` after a false evaluation,
so for `limit ≥ 1` exactly `limit` failed evaluations are allowed.
Returns the event trace and whether the gate opened (`true`) or the
poll budget was exhausted (`false`, the `return None` path). -/
def mainWaitLoop (gate : Nat → Bool) (limit : Nat) : List PollEvent × Bool :=
  waitFrom gate (limit - 1) 0

/-! ## Booking steps: `BookingBot.login_to_website`, `click_book_now`,
`select_session`, `select_bike` -/

/-- Presence (and Python truthiness: non-empty) of the two credential
environment variables `CRU_BOOKING_EMAIL` and `CRU_BOOKING_PASSWORD`. -/
structure Creds where
  email : Bool
  password : Bool
deriving DecidableEq, Repr

/-- Observable events of `BookingBot.run` and its steps.  Browser
sessions are numbered in order of creation; `acquire`/`release` are
`start_driver` (the `webdriver.Chrome(...)` call) and the
`driver.quit()` inside `stop_driver`; `loginPage sid` is the
`driver.get(login_url)` call on session `sid`; `logMissingCreds` is the
"Error: Email or password not set" log line; `sleepLag` is the
`time.sleep(self.lag)` between attempts; `logFinalFailure` is the
"Maximum number of tries without success reached" log line. -/
inductive Event where
  | attemptStart (n : Nat)
  | acquire (sid : Nat)
  | release (sid : Nat)
  | loginPage (sid : Nat)
  | logMissingCreds
  | sleepLag
  | logFinalFailure
deriving DecidableEq, Repr

/-- Browser behaviour during one `login_to_website` call:
`getExc` — exception raised by `self.driver.get(login_url)` (this call
is outside every `try` block of the method); `formExc` — first
exception raised inside the guarded region (iframe switch, username /
password lookup, send_keys, sign-in click); `alertFound` — whether
`find_element(By.CLASS_NAME, "alert")` finds an element (when it does
not, it raises `NoSuchElementException`, which the inner `except`
treats as a successful login); `alertDisplayed` — the found alert's
`is_displayed()`. -/
structure LoginBeh where
  getExc : Option PyExc
  formExc : Option PyExc
  alertFound : Bool
  alertDisplayed : Bool
deriving DecidableEq, Repr

/-- `BookingBot.login_to_website` (src/booking_bot.py lines 94-157),
with driver state made explicit: `driver` is the current session id if
one is open, `nextId` numbers the next session to create.  Returns
(result, driver after the call, next id, events).  The result is
`Except.error e` when an exception escapes the method, and otherwise
`Except.ok r` where `r : Option Bool` is the Python return value —
`none` is Python's implicit `return None` on the path where the alert
element exists but is not displayed (the code falls through every
`return`). -/
def login_to_website (creds : Creds) (b : LoginBeh) (driver : Option Nat)
    (nextId : Nat) : Except PyExc (Option Bool) × Option Nat × Nat × List Event :=
  -- `if not self.driver: self.start_driver()`
  let acq : List Event × Nat × Nat :=
    match driver with
    | none => ([Event.acquire nextId], nextId, nextId + 1)
    | some d => ([], d, nextId)
  let sid := acq.2.1
  let nid := acq.2.2
  -- `self.driver.get(self.config['login_url'])` — not guarded by any try
  let evs := acq.1 ++ [Event.loginPage sid]
  match b.getExc with
  | some e => (Except.error e, some sid, nid, evs)
  | none =>
    -- `if not email or not password: ... return False`
    if creds.email && creds.password then
      match b.formExc with
      | some e =>
        if e.caught then (Except.ok (some false), some sid, nid, evs)
        else (Except.error e, some sid, nid, evs)
      | none =>
        if !b.alertFound then
          -- inner `except (NoSuchElementException, TimeoutException)`: success
          (Except.ok (some true), some sid, nid, evs)
        else if b.alertDisplayed then
          (Except.ok (some false), some sid, nid, evs)
        else
          -- alert present but not displayed: no `return` is reached
          (Except.ok none, some sid, nid, evs)
    else
      (Except.ok (some false), some sid, nid, evs ++ [Event.logMissingCreds])

/-- Python truthiness of the `Option Bool` return value, as used by
`if self.login_to_website():` in `run` (`None` is falsy). -/
def truthy : Option Bool → Bool
  | none => false
  | some b => b

/-- `BookingBot.click_book_now` (src/booking_bot.py lines 160-186).
The whole body is one guarded region; `navExc` is the first exception
raised by its element lookups / hover / click, `none` if all succeed
(the method then returns True). -/
def click_book_now (navExc : Option PyExc) : Except PyExc Bool :=
  match navExc with
  | none => Except.ok true
  | some e => if e.caught then Except.ok false else Except.error e

/-- The three config fields `select_session` matches against each
candidate entry's text (`desired_session` activity / instructor /
time). -/
structure SessionCriteria where
  activity : String
  instructor : String
  time : String
deriving DecidableEq, Repr

/-- Page behaviour during one `select_session` call: `preExc` — first
exception raised before the scan loop (iframe switch, NEXT WEEK click,
session-day lookup, instructor-filtered element list); `entries` — the
`.text` of each element of `all_sessions_day_data_instructor`, in
document order; `clickExc` — exception raised by the clickable-wait /
click on the matched entry. -/
structure SelectSessionBeh where
  preExc : Option PyExc
  entries : List String
  clickExc : Option PyExc
deriving DecidableEq, Repr

/-- The match test of the scan loop: all three desired strings occur as
substrings of the entry's combined text (Python `in`). -/
def matchesCriteria (c : SessionCriteria) (text : String) : Bool :=
  subMatch c.activity text && subMatch c.instructor text && subMatch c.time text

/-- The `for session in all_sessions_day_data_instructor:` loop of
`select_session`.  `i` is the document-order index of the head entry.
Returns the Python result together with the index of the entry whose
link was clicked, if any.  A non-matching entry is skipped; the first
matching entry is clicked (a caught exception while making it
clickable aborts the whole method with False via the outer except). -/
def sessionScan (c : SessionCriteria) (clickExc : Option PyExc) :
    List String → Nat → Except PyExc (Bool × Option Nat)
  | [], _ => Except.ok (false, none)
  | t :: rest, i =>
    if matchesCriteria c t then
      match clickExc with
      | none => Except.ok (true, some i)
      | some e =>
        if e.caught then Except.ok (false, none) else Except.error e
    else
      sessionScan c clickExc rest (i + 1)

/-- `BookingBot.select_session` (src/booking_bot.py lines 189-243).
Result `Except.ok (r, clicked)`: `r` is the returned bool, `clicked`
the document-order index of the clicked entry (if any). -/
def select_session (c : SessionCriteria) (b : SelectSessionBeh) :
    Except PyExc (Bool × Option Nat) :=
  match b.preExc with
  | some e => if e.caught then Except.ok (false, none) else Except.error e
  | none => sessionScan c b.clickExc b.entries 0

/-- Index of the first entry matching all three criteria, if any. -/
def firstMatchIdx (c : SessionCriteria) : List String → Option Nat
  | [] => none
  | t :: rest =>
    if matchesCriteria c t then some 0
    else (firstMatchIdx c rest).map (· + 1)

/-- Page behaviour during one `select_bike` call: `preExc` — first
exception raised in the guarded region (iframe switch, bike-link
lookup and click); `noSeriesFound` / `noSeriesDisplayed` — the
`a[data-dismiss = 'alert']` element's presence and `is_displayed()`;
`successFound` / `successDisplayed` / `successText` — the
`success-message` element's presence, `is_displayed()` and `.text`. -/
structure SelectBikeBeh where
  preExc : Option PyExc
  noSeriesFound : Bool
  noSeriesDisplayed : Bool
  successFound : Bool
  successDisplayed : Bool
  successText : String
deriving DecidableEq, Repr

/-- The fixed no-applicable-series message returned by `select_bike`. -/
def noSeriesMsg : String :=
  "You don\x27t have a series in your account that\x27s applicable for this class."

/-- The fixed unknown-outcome message returned by `select_bike`. -/
def unknownMsg : String := "Unknown outcome after seat selection."

/-- `BookingBot.select_bike` (src/booking_bot.py lines 246-287).
`Except.ok (some msg)` is a Python `return msg`; `Except.ok none` is
the implicit `return None` reached when the `success-message` element
is found but not displayed (both inner `try` blocks fall through);
`Except.error e` is an escaping exception. -/
def select_bike (b : SelectBikeBeh) : Except PyExc (Option String) :=
  match b.preExc with
  | some e =>
    if e.caught then
      Except.ok (some ("Error during seat selection: " ++ e.text))
    else
      Except.error e
  | none =>
    -- first inner try: the no-series alert (absence raises
    -- NoSuchElementException, caught by `pass`)
    if b.noSeriesFound && b.noSeriesDisplayed then
      Except.ok (some noSeriesMsg)
    else
      -- second inner try: the success message
      if b.successFound then
        if b.successDisplayed then Except.ok (some b.successText)
        else Except.ok none
      else
        Except.ok (some unknownMsg)

/-! ## Retry Orchestrator: `BookingBot.run` -/

/-- Behaviour of the browser/page during one attempt of `run`. -/
structure AttemptBeh where
  login : LoginBeh
  navExc : Option PyExc
  sess : SelectSessionBeh
  bike : SelectBikeBeh
deriving DecidableEq, Repr

/-- Outcome of the `try` block of one attempt: the booking succeeded
(`break`), the attempt failed (fall through to the next attempt), or
an exception escaped the block (re-raised after the `finally`). -/
inductive AttemptRes where
  | success
  | failed
  | raised (e : PyExc)
deriving DecidableEq, Repr

/-- The substring `run` tests the `select_bike` result against:
`if "successfully enrolled" in result:`. -/
def enrolledMarker : String := "successfully enrolled"

/-- The steps of the `try` block of one attempt in `BookingBot.run`
after `login_to_website` has produced `r` (src/booking_bot.py lines
327-336): the nested `if login…: if click_book_now(): if
select_session(): result = select_bike(…)` chain.  Testing
`"successfully enrolled" in result` when `select_bike` returned `None`
raises a Python `TypeError`. -/
def stepChain (crit : SessionCriteria) (b : AttemptBeh)
    (r : Except PyExc (Option Bool)) : AttemptRes :=
  match r with
  | Except.error e => AttemptRes.raised e
  | Except.ok r =>
    if truthy r then
      match click_book_now b.navExc with
      | Except.error e => AttemptRes.raised e
      | Except.ok false => AttemptRes.failed
      | Except.ok true =>
        match select_session crit b.sess with
        | Except.error e => AttemptRes.raised e
        | Except.ok (false, _) => AttemptRes.failed
        | Except.ok (true, _) =>
          match select_bike b.bike with
          | Except.error e => AttemptRes.raised e
          | Except.ok none => AttemptRes.raised PyExc.typeError
          | Except.ok (some msg) =>
            if subMatch enrolledMarker msg then AttemptRes.success
            else AttemptRes.failed
    else AttemptRes.failed

/-- The body of the `try` block of one attempt in `BookingBot.run`
(src/booking_bot.py lines 326-336): run `login_to_website`, then the
remaining steps via `stepChain`.  Only `login_to_website` touches the
driver state or emits tracked events; the `desired_bike` argument of
the source is absorbed into `SelectBikeBeh` (it only picks which link
`select_bike` clicks). -/
def attemptBody (creds : Creds) (crit : SessionCriteria) (b : AttemptBeh)
    (driver : Option Nat) (nextId : Nat) :
    AttemptRes × Option Nat × Nat × List Event :=
  let l := login_to_website creds b.login driver nextId
  (stepChain crit b l.1, l.2)

/-- `BookingBot.stop_driver` (src/booking_bot.py lines 78-91):
`if self.driver: self.driver.quit(); self.driver = None`. -/
def stop_driver (driver : Option Nat) : Option Nat × List Event :=
  match driver with
  | some sid => (none, [Event.release sid])
  | none => (none, [])

/-- The `for attempt in range(1, max_tries + 1)` loop of
`BookingBot.run` (src/booking_bot.py lines 320-344), together with the
final `if not booking_successful:` log.  `rem` is the number of
remaining iterations, `n` the 1-based attempt number, `d` / `i` the
driver state.  Each iteration logs the attempt, runs the `try` block,
always runs the `finally: self.stop_driver()`, then on success breaks
(no sleep, no final-failure log), on an escaped exception re-raises it
(no sleep, no final-failure log), and otherwise sleeps `self.lag` and
continues.  The loop ending without success logs the final failure.
The second component of the result is the final `booking_successful`
flag (Python `run` itself returns `None`), or the escaped exception. -/
def runLoop (creds : Creds) (crit : SessionCriteria) (beh : Nat → AttemptBeh) :
    Nat → Nat → Option Nat → Nat → List Event × Except PyExc Bool
  | 0, _, _, _ => ([Event.logFinalFailure], Except.ok false)
  | rem + 1, n, d, i =>
    let a := attemptBody creds crit (beh n) d i
    let s := stop_driver a.2.1
    let evs := Event.attemptStart n :: (a.2.2.2 ++ s.2)
    match a.1 with
    | AttemptRes.raised e => (evs, Except.error e)
    | AttemptRes.success => (evs, Except.ok true)
    | AttemptRes.failed =>
      let rest := runLoop creds crit beh rem (n + 1) s.1 a.2.2.1
      (evs ++ Event.sleepLag :: rest.1, rest.2)

/-- `BookingBot.run` for `max_tries = N`: the loop starts at attempt 1
with no driver open and session counter 0.  `beh n` is the
browser/page behaviour the n-th attempt observes. -/
def run (creds : Creds) (crit : SessionCriteria) (beh : Nat → AttemptBeh)
    (N : Nat) : List Event × Except PyExc Bool :=
  runLoop creds crit beh N 1 none 0

/-! ## Analytic normal forms used by the theorems -/

/-- The Python return value of `login_to_website`, as a function of the
credentials and behaviour alone (it does not depend on the driver
state). -/
def loginRes (creds : Creds) (b : LoginBeh) : Except PyExc (Option Bool) :=
  match b.getExc with
  | some e => Except.error e
  | none =>
    if creds.email && creds.password then
      match b.formExc with
      | some e =>
        if e.caught then Except.ok (some false) else Except.error e
      | none =>
        if !b.alertFound then Except.ok (some true)
        else if b.alertDisplayed then Except.ok (some false)
        else Except.ok none
    else Except.ok (some false)

/-- The events of a `login_to_website` call that opens session `sid`:
a fresh driver is created, the login page is visited, and the
missing-credentials error is logged exactly when the env check is
reached and fails. -/
def loginEvs (creds : Creds) (b : LoginBeh) (sid : Nat) : List Event :=
  [Event.acquire sid, Event.loginPage sid] ++
    (if b.getExc = none ∧ (creds.email && creds.password) = false then
      [Event.logMissingCreds]
    else [])

/-- The outcome of one attempt's `try` block, as a function of the
credentials, criteria and behaviour alone. -/
def attemptRes (creds : Creds) (crit : SessionCriteria) (b : AttemptBeh) :
    AttemptRes :=
  (attemptBody creds crit b none 0).1

/-- The full event trace of one failed attempt starting session `s` as
attempt number `a`: the attempt log line, the login events, the
`finally` release, and the inter-attempt sleep. -/
def failSeg (creds : Creds) (beh : Nat → AttemptBeh) (a s : Nat) : List Event :=
  Event.attemptStart a ::
    (loginEvs creds (beh a).login s ++ [Event.release s, Event.sleepLag])

/-- Is this event the start-of-attempt log line? -/
def isAttemptStart : Event → Bool
  | Event.attemptStart _ => true
  | _ => false

/-- Is this event a driver acquisition or release? -/
def isAcqRel : Event → Bool
  | Event.acquire _ => true
  | Event.release _ => true
  | _ => false

/-- Is this event the missing-credentials log line? -/
def isMissingLog : Event → Bool
  | Event.logMissingCreds => true
  | _ => false

/-- Number of attempts recorded in a trace. -/
def countAttempts (evs : List Event) : Nat :=
  evs.countP isAttemptStart

/-- Is this poll event a gate evaluation? -/
def isGateCheck : PollEvent → Bool
  | PollEvent.gateCheck _ _ => true
  | _ => false

/-- The hypotheses under which no exception escapes one attempt:
`driver.get` does not raise, every exception raised inside a guarded
region is of a caught class (`NoSuchElementException` /
`TimeoutException`), and `select_bike` does not hit the
found-but-not-displayed fall-through (whose `None` return makes `run`
raise a `TypeError`). -/
def cleanAttempt (b : AttemptBeh) : Prop :=
  b.login.getExc = none ∧
  (∀ e, b.login.formExc = some e → e.caught = true) ∧
  (∀ e, b.navExc = some e → e.caught = true) ∧
  (∀ e, b.sess.preExc = some e → e.caught = true) ∧
  (∀ e, b.sess.clickExc = some e → e.caught = true) ∧
  (∀ e, b.bike.preExc = some e → e.caught = true) ∧
  (b.bike.successFound = true → b.bike.successDisplayed = true)

/-! Concrete fixtures used by witnesses and counterexamples -/

/-- Credentials with both environment variables present. -/
def credsOk : Creds := ⟨true, true⟩

/-- Credentials with the email environment variable missing. -/
def credsNoEmail : Creds := ⟨false, true⟩

/-- A concrete `desired_session` criteria record. -/
def critSpin : SessionCriteria := ⟨"Spin", "Jane", "6:00 PM"⟩

/-- A login behaviour whose guarded form lookups time out: login
returns False on every attempt. -/
def loginFailBeh : LoginBeh := ⟨none, some PyExc.timeout, false, false⟩

/-- A login behaviour where everything succeeds and no alert appears:
login returns True. -/
def loginOkBeh : LoginBeh := ⟨none, none, false, false⟩

/-- An attempt behaviour whose login step fails (and clean otherwise). -/
def attemptFailBeh : AttemptBeh :=
  ⟨loginFailBeh, none, ⟨none, [], none⟩, ⟨none, false, false, false, false, ""⟩⟩

/-- An attempt behaviour with no exceptions at all; with credentials
missing, its login still reports them and returns False. -/
def attemptPlainBeh : AttemptBeh :=
  ⟨loginOkBeh, none, ⟨none, [], none⟩, ⟨none, false, false, false, false, ""⟩⟩

/-- A page listing three candidate sessions; only the entries at
indices 1 and 2 contain all of `critSpin`'s fields as substrings. -/
def sessListBeh : SelectSessionBeh :=
  ⟨none,
    ["5:00 PM Pilates with Pam",
     "6:00 PM Spin with Jane",
     "6:00 PM Spin with Jane"],
    none⟩

/-- A `select_bike` page state showing a displayed success message. -/
def bikeOkBeh : SelectBikeBeh :=
  ⟨none, false, false, true, true,
    "You have successfully enrolled in this class"⟩

/-- A fully successful attempt behaviour. -/
def attemptOkBeh : AttemptBeh := ⟨loginOkBeh, none, sessListBeh, bikeOkBeh⟩

/-- An attempt behaviour whose `driver.get(login_url)` raises a
`TimeoutException` (outside every try block of `login_to_website`). -/
def getRaiseBeh : AttemptBeh :=
  ⟨⟨some PyExc.timeout, none, false, false⟩, none, ⟨none, [], none⟩,
    ⟨none, false, false, false, false, ""⟩⟩

/-- A `select_bike` page state where the `success-message` element
exists but is not displayed: both inner try blocks fall through. -/
def bikeHiddenSuccessBeh : SelectBikeBeh :=
  ⟨none, false, false, true, false,
    "You have successfully enrolled in this class"⟩

/-! ## Helper lemmas -/

theorem login_nf (creds : Creds) (b : LoginBeh) (i : Nat) :
    login_to_website creds b none i =
      (loginRes creds b, some i, i + 1, loginEvs creds b i) := by
  rcases b with ⟨g, f, af, ad⟩
  rcases g with _ | eg
  · rcases f with _ | ef
    · cases af <;> cases ad <;> cases hc : creds.email <;> cases hp : creds.password <;>
        simp [login_to_website, loginRes, loginEvs, hc, hp]
    · cases ef <;> cases hc : creds.email <;> cases hp : creds.password <;>
        simp [login_to_website, loginRes, loginEvs, PyExc.caught, hc, hp]
  · simp [login_to_website, loginRes, loginEvs]

theorem attempt_nf (creds : Creds) (crit : SessionCriteria) (b : AttemptBeh)
    (i : Nat) :
    attemptBody creds crit b none i =
      (attemptRes creds crit b, some i, i + 1, loginEvs creds b.login i) := by
  unfold attemptRes attemptBody
  simp only [login_nf]

theorem stop_driver_none (d : Option Nat) : (stop_driver d).1 = none := by
  cases d <;> rfl

theorem runLoop_fail_step (creds : Creds) (crit : SessionCriteria)
    (beh : Nat → AttemptBeh) (rem n i : Nat)
    (h : attemptRes creds crit (beh n) = AttemptRes.failed) :
    runLoop creds crit beh (rem + 1) n none i =
      (failSeg creds beh n i ++ (runLoop creds crit beh rem (n + 1) none (i + 1)).1,
       (runLoop creds crit beh rem (n + 1) none (i + 1)).2) := by
  simp only [runLoop, attempt_nf, h, stop_driver, failSeg]
  simp [List.append_assoc]

theorem runLoop_success_step (creds : Creds) (crit : SessionCriteria)
    (beh : Nat → AttemptBeh) (rem n i : Nat)
    (h : attemptRes creds crit (beh n) = AttemptRes.success) :
    runLoop creds crit beh (rem + 1) n none i =
      (Event.attemptStart n ::
        (loginEvs creds (beh n).login i ++ [Event.release i]), Except.ok true) := by
  simp only [runLoop, attempt_nf, h, stop_driver]

theorem runLoop_raised_step (creds : Creds) (crit : SessionCriteria)
    (beh : Nat → AttemptBeh) (rem n i : Nat) (e : PyExc)
    (h : attemptRes creds crit (beh n) = AttemptRes.raised e) :
    runLoop creds crit beh (rem + 1) n none i =
      (Event.attemptStart n ::
        (loginEvs creds (beh n).login i ++ [Event.release i]), Except.error e) := by
  simp only [runLoop, attempt_nf, h, stop_driver]

theorem flatMap_range_shift {α : Type} (f : Nat → List α) (k : Nat) :
    (List.range (k + 1)).flatMap f =
      f 0 ++ (List.range k).flatMap (fun j => f (j + 1)) := by
  induction k with
  | zero =>
    rw [show List.range 1 = [0] from rfl]
    simp
  | succ r ih =>
    rw [List.range_succ, List.flatMap_append, ih, List.range_succ,
      List.flatMap_append]
    simp [List.append_assoc]

theorem flatMap_congr_all {α β : Type} (l : List α) (f g : α → List β)
    (h : ∀ a, f a = g a) : l.flatMap f = l.flatMap g := by
  induction l with
  | nil => rfl
  | cons x xs ih => simp only [List.flatMap_cons, h x, ih]

theorem runLoop_all_fail (creds : Creds) (crit : SessionCriteria)
    (beh : Nat → AttemptBeh)
    (hf : ∀ m, attemptRes creds crit (beh m) = AttemptRes.failed) :
    ∀ rem n i, runLoop creds crit beh rem n none i =
      ((List.range rem).flatMap (fun j => failSeg creds beh (n + j) (i + j)) ++
        [Event.logFinalFailure], Except.ok false) := by
  intro rem
  induction rem with
  | zero => intro n i; simp [runLoop]
  | succ rem ih =>
    intro n i
    rw [runLoop_fail_step creds crit beh rem n i (hf n), ih (n + 1) (i + 1)]
    rw [flatMap_range_shift]
    rw [flatMap_congr_all (List.range rem)
      (fun j => failSeg creds beh (n + 1 + j) (i + 1 + j))
      (fun j => failSeg creds beh (n + (j + 1)) (i + (j + 1)))
      (fun j => by
        have e1 : n + 1 + j = n + (j + 1) := by omega
        have e2 : i + 1 + j = i + (j + 1) := by omega
        simp only [e1, e2])]
    simp [List.append_assoc]

theorem runLoop_success_at (creds : Creds) (crit : SessionCriteria)
    (beh : Nat → AttemptBeh) :
    ∀ kk rem n i, kk < rem →
      (∀ j, j < kk → attemptRes creds crit (beh (n + j)) = AttemptRes.failed) →
      attemptRes creds crit (beh (n + kk)) = AttemptRes.success →
      runLoop creds crit beh rem n none i =
        ((List.range kk).flatMap (fun j => failSeg creds beh (n + j) (i + j)) ++
          Event.attemptStart (n + kk) ::
            (loginEvs creds (beh (n + kk)).login (i + kk) ++ [Event.release (i + kk)]),
         Except.ok true) := by
  intro kk
  induction kk with
  | zero =>
    intro rem n i hlt _ hs
    obtain ⟨rem', rfl⟩ : ∃ r, rem = r + 1 := ⟨rem - 1, by omega⟩
    rw [runLoop_success_step creds crit beh rem' n i (by simpa using hs)]
    simp
  | succ kk ih =>
    intro rem n i hlt hfail hs
    obtain ⟨rem', rfl⟩ : ∃ r, rem = r + 1 := ⟨rem - 1, by omega⟩
    rw [runLoop_fail_step creds crit beh rem' n i (by simpa using hfail 0 (by omega))]
    rw [ih rem' (n + 1) (i + 1) (by omega)
      (fun j hj => by
        have := hfail (j + 1) (by omega)
        simpa [(by omega : n + (j + 1) = n + 1 + j)] using this)
      (by simpa [(by omega : n + (kk + 1) = n + 1 + kk)] using hs)]
    rw [flatMap_range_shift]
    rw [flatMap_congr_all (List.range kk)
      (fun j => failSeg creds beh (n + 1 + j) (i + 1 + j))
      (fun j => failSeg creds beh (n + (j + 1)) (i + (j + 1)))
      (fun j => by
        have e1 : n + 1 + j = n + (j + 1) := by omega
        have e2 : i + 1 + j = i + (j + 1) := by omega
        simp only [e1, e2])]
    have e3 : n + 1 + kk = n + (kk + 1) := by omega
    have e4 : i + 1 + kk = i + (kk + 1) := by omega
    simp [e3, e4, List.append_assoc]

theorem runLoop_no_raise (creds : Creds) (crit : SessionCriteria)
    (beh : Nat → AttemptBeh)
    (hnr : ∀ m e, attemptRes creds crit (beh m) ≠ AttemptRes.raised e) :
    ∀ rem n i, ∃ bb, (runLoop creds crit beh rem n none i).2 = Except.ok bb := by
  intro rem
  induction rem with
  | zero => intro n i; exact ⟨false, rfl⟩
  | succ rem ih =>
    intro n i
    cases h : attemptRes creds crit (beh n) with
    | success =>
      exact ⟨true, by rw [runLoop_success_step creds crit beh rem n i h]⟩
    | failed =>
      obtain ⟨bb, hbb⟩ := ih (n + 1) (i + 1)
      exact ⟨bb, by rw [runLoop_fail_step creds crit beh rem n i h]; exact hbb⟩
    | raised e => exact absurd h (hnr n e)

/-! Trace accounting -/

theorem loginEvs_filter_acqrel (creds : Creds) (b : LoginBeh) (s : Nat) :
    (loginEvs creds b s).filter isAcqRel = [Event.acquire s] := by
  unfold loginEvs
  split <;> simp [isAcqRel]

theorem loginEvs_count_start (creds : Creds) (b : LoginBeh) (s : Nat) :
    (loginEvs creds b s).countP isAttemptStart = 0 := by
  unfold loginEvs
  split <;> simp [List.countP_cons, isAttemptStart]

theorem failSeg_count_start (creds : Creds) (beh : Nat → AttemptBeh) (a s : Nat) :
    (failSeg creds beh a s).countP isAttemptStart = 1 := by
  unfold failSeg
  simp [List.countP_cons, List.countP_append, isAttemptStart,
    loginEvs_count_start]

theorem failSeg_filter_acqrel (creds : Creds) (beh : Nat → AttemptBeh) (a s : Nat) :
    (failSeg creds beh a s).filter isAcqRel = [Event.acquire s, Event.release s] := by
  unfold failSeg
  simp [List.filter_append, isAcqRel, loginEvs_filter_acqrel]

theorem count_flatMap_failSeg (creds : Creds) (beh : Nat → AttemptBeh)
    (f g : Nat → Nat) :
    ∀ k, ((List.range k).flatMap
        (fun j => failSeg creds beh (f j) (g j))).countP isAttemptStart = k := by
  intro k
  induction k with
  | zero => rfl
  | succ r ih =>
    rw [List.range_succ, List.flatMap_append, List.countP_append, ih]
    simp [failSeg_count_start]

theorem failSeg_count_missing (creds : Creds) (beh : Nat → AttemptBeh) (a s : Nat)
    (hcred : (creds.email && creds.password) = false)
    (hget : (beh a).login.getExc = none) :
    (failSeg creds beh a s).countP isMissingLog = 1 := by
  unfold failSeg loginEvs
  rw [if_pos ⟨hget, hcred⟩]
  simp [List.countP_cons, List.countP_append, isMissingLog]

theorem count_flatMap_missing (creds : Creds) (beh : Nat → AttemptBeh)
    (f g : Nat → Nat)
    (hcred : (creds.email && creds.password) = false)
    (hget : ∀ m, (beh m).login.getExc = none) :
    ∀ k, ((List.range k).flatMap
        (fun j => failSeg creds beh (f j) (g j))).countP isMissingLog = k := by
  intro k
  induction k with
  | zero => rfl
  | succ r ih =>
    rw [List.range_succ, List.flatMap_append, List.countP_append, ih]
    simp [failSeg_count_missing creds beh (f r) (g r) hcred (hget (f r))]

theorem runLoop_acqrel (creds : Creds) (crit : SessionCriteria)
    (beh : Nat → AttemptBeh) :
    ∀ rem n i,
      ((runLoop creds crit beh rem n none i).1).filter isAcqRel =
        (List.range (countAttempts (runLoop creds crit beh rem n none i).1)).flatMap
          (fun j => [Event.acquire (i + j), Event.release (i + j)]) := by
  intro rem
  induction rem with
  | zero => intro n i; rfl
  | succ rem ih =>
    intro n i
    cases h : attemptRes creds crit (beh n) with
    | success =>
      rw [runLoop_success_step creds crit beh rem n i h]
      simp [countAttempts, List.countP_cons, List.countP_append, isAttemptStart,
        loginEvs_count_start, List.filter_append, isAcqRel, loginEvs_filter_acqrel,
        (show List.range 1 = [0] from rfl)]
    | raised e =>
      rw [runLoop_raised_step creds crit beh rem n i e h]
      simp [countAttempts, List.countP_cons, List.countP_append, isAttemptStart,
        loginEvs_count_start, List.filter_append, isAcqRel, loginEvs_filter_acqrel,
        (show List.range 1 = [0] from rfl)]
    | failed =>
      rw [runLoop_fail_step creds crit beh rem n i h]
      simp only [List.filter_append, failSeg_filter_acqrel, countAttempts,
        List.countP_append, failSeg_count_start]
      rw [ih (n + 1) (i + 1)]
      rw [(by omega : 1 + List.countP isAttemptStart
          (runLoop creds crit beh rem (n + 1) none (i + 1)).1
        = List.countP isAttemptStart
            (runLoop creds crit beh rem (n + 1) none (i + 1)).1 + 1)]
      rw [flatMap_range_shift]
      rw [flatMap_congr_all
        (List.range (countAttempts (runLoop creds crit beh rem (n + 1) none (i + 1)).1))
        (fun j => [Event.acquire (i + 1 + j), Event.release (i + 1 + j)])
        (fun j => [Event.acquire (i + (j + 1)), Event.release (i + (j + 1))])
        (fun j => by
          have e2 : i + 1 + j = i + (j + 1) := by omega
          simp only [e2])]
      simp [countAttempts]

theorem ittb_char (now : Now) (w : BookingWindow) :
    is_time_to_book now w = true ↔
      (now.weekdayName = w.booking_day ∧ now.hour = w.booking_hour ∧
        w.booking_minute_start ≤ now.minute ∧ now.minute ≤ w.booking_minute_end) := by
  unfold is_time_to_book
  by_cases h1 : now.weekdayName = w.booking_day <;>
    by_cases h2 : now.hour = w.booking_hour ∧
        w.booking_minute_start ≤ now.minute ∧ now.minute ≤ w.booking_minute_end <;>
      simp [h1, h2]

theorem waitFrom_all_false (gate : Nat → Bool) :
    ∀ fuel k0, (∀ i, gate i = false) →
      waitFrom gate fuel k0 =
        ((List.range (fuel + 1)).flatMap
          (fun i => [PollEvent.gateCheck (k0 + i) false, PollEvent.pollSleep 60]),
         false) := by
  intro fuel
  induction fuel with
  | zero =>
    intro k0 hg
    rw [show List.range 1 = [0] from rfl]
    simp [waitFrom, hg k0]
  | succ f ih =>
    intro k0 hg
    rw [waitFrom, if_neg (by simp [hg k0])]
    simp only
    rw [ih (k0 + 1) hg]
    conv_rhs => rw [flatMap_range_shift]
    rw [flatMap_congr_all (List.range (f + 1))
      (fun i => [PollEvent.gateCheck (k0 + 1 + i) false, PollEvent.pollSleep 60])
      (fun i => [PollEvent.gateCheck (k0 + (i + 1)) false, PollEvent.pollSleep 60])
      (fun i => by
        have e1 : k0 + 1 + i = k0 + (i + 1) := by omega
        simp only [e1])]
    simp

theorem waitFrom_opens (gate : Nat → Bool) :
    ∀ k fuel k0, k < fuel + 1 →
      (∀ j, j < k → gate (k0 + j) = false) → gate (k0 + k) = true →
      waitFrom gate fuel k0 =
        ((List.range k).flatMap
            (fun i => [PollEvent.gateCheck (k0 + i) false, PollEvent.pollSleep 60]) ++
          [PollEvent.gateCheck (k0 + k) true],
         true) := by
  intro k
  induction k with
  | zero =>
    intro fuel k0 _ _ hk
    have hk' : gate k0 = true := by simpa using hk
    rw [waitFrom.eq_def]
    simp [hk']
  | succ k ih =>
    intro fuel k0 hlt hfalse hk
    obtain ⟨f, rfl⟩ : ∃ f, fuel = f + 1 := ⟨fuel - 1, by omega⟩
    rw [waitFrom, if_neg (by simpa using congrArg not (hfalse 0 (by omega)))]
    simp only
    rw [ih f (k0 + 1) (by omega)
      (fun j hj => by
        have := hfalse (j + 1) (by omega)
        simpa [(by omega : k0 + (j + 1) = k0 + 1 + j)] using this)
      (by simpa [(by omega : k0 + (k + 1) = k0 + 1 + k)] using hk)]
    rw [flatMap_range_shift]
    rw [flatMap_congr_all (List.range k)
      (fun i => [PollEvent.gateCheck (k0 + 1 + i) false, PollEvent.pollSleep 60])
      (fun i => [PollEvent.gateCheck (k0 + (i + 1)) false, PollEvent.pollSleep 60])
      (fun i => by
        have e1 : k0 + 1 + i = k0 + (i + 1) := by omega
        simp only [e1])]
    have e3 : k0 + 1 + k = k0 + (k + 1) := by omega
    simp [e3, List.append_assoc]

/-! Session-scan lemmas -/

theorem sessionScan_clean (c : SessionCriteria) :
    ∀ (l : List String) (i : Nat),
      sessionScan c none l i =
        (match firstMatchIdx c l with
         | some k => Except.ok (true, some (i + k))
         | none => Except.ok (false, none)) := by
  intro l
  induction l with
  | nil => intro i; rfl
  | cons t rest ih =>
    intro i
    by_cases hm : matchesCriteria c t = true
    · simp [sessionScan, firstMatchIdx, hm]
    · simp only [sessionScan]
      rw [if_neg hm, ih (i + 1)]
      rw [firstMatchIdx, if_neg hm]
      rcases hr : firstMatchIdx c rest with _ | k
      · simp
      · simp [(by omega : i + 1 + k = i + (k + 1))]

theorem sessionScan_click_caught (c : SessionCriteria) (e : PyExc)
    (he : e.caught = true) :
    ∀ (l : List String) (i : Nat),
      sessionScan c (some e) l i = Except.ok (false, none) := by
  intro l
  induction l with
  | nil => intro i; rfl
  | cons t rest ih =>
    intro i
    by_cases hm : matchesCriteria c t = true
    · simp [sessionScan, hm, he]
    · simp only [sessionScan]
      rw [if_neg hm]
      exact ih (i + 1)

theorem sessionScan_never_raises (c : SessionCriteria) (ce : Option PyExc)
    (hce : ∀ e, ce = some e → e.caught = true) :
    ∀ (l : List String) (i : Nat), ∃ p, sessionScan c ce l i = Except.ok p := by
  intro l
  induction l with
  | nil => intro i; exact ⟨(false, none), rfl⟩
  | cons t rest ih =>
    intro i
    by_cases hm : matchesCriteria c t = true
    · rcases hc : ce with _ | e
      · exact ⟨(true, some i), by simp [sessionScan, hm, hc]⟩
      · exact ⟨(false, none), by simp [sessionScan, hm, hc, hce e hc]⟩
    · simp only [sessionScan]
      rw [if_neg hm]
      exact ih (i + 1)

theorem firstMatchIdx_spec (c : SessionCriteria) :
    ∀ (l : List String) (i : Nat), firstMatchIdx c l = some i →
      ∃ h : i < l.length,
        matchesCriteria c (l.get ⟨i, h⟩) = true ∧
        ∀ j (hj : j < l.length), j < i → matchesCriteria c (l.get ⟨j, hj⟩) = false := by
  intro l
  induction l with
  | nil => intro i h; exact absurd h (by simp [firstMatchIdx])
  | cons t rest ih =>
    intro i h
    by_cases hm : matchesCriteria c t = true
    · rw [firstMatchIdx, if_pos hm] at h
      obtain rfl : i = 0 := by simpa using h.symm
      exact ⟨by simp, hm, fun j hj hji => absurd hji (by omega)⟩
    · rw [firstMatchIdx, if_neg hm] at h
      rcases hr : firstMatchIdx c rest with _ | k
      · rw [hr] at h; simp at h
      · rw [hr] at h
        obtain rfl : i = k + 1 := by simpa using h.symm
        obtain ⟨hk, hmk, hprev⟩ := ih k hr
        refine ⟨by simpa using Nat.succ_lt_succ hk, by simpa using hmk, ?_⟩
        intro j hj hji
        cases j with
        | zero => simpa using (by simpa using hm : matchesCriteria c t = false)
        | succ j' =>
          have hj' : j' < rest.length := by simpa using hj
          have := hprev j' hj' (by omega)
          simpa using this

/-! Attempt-level outcome lemmas -/

theorem missing_creds_attempt_failed (creds : Creds) (crit : SessionCriteria)
    (b : AttemptBeh) (hcred : (creds.email && creds.password) = false)
    (hget : b.login.getExc = none) :
    attemptRes creds crit b = AttemptRes.failed := by
  unfold attemptRes attemptBody
  rw [login_nf]
  simp only
  unfold stepChain loginRes
  rw [hget]
  simp [hcred, truthy]

theorem loginRes_no_raise (creds : Creds) (b : LoginBeh)
    (hget : b.getExc = none)
    (hform : ∀ e, b.formExc = some e → e.caught = true) :
    ∃ r, loginRes creds b = Except.ok r := by
  unfold loginRes
  rw [hget]
  rcases hf : b.formExc with _ | ef
  · cases hcc : (creds.email && creds.password) <;>
      cases hb : b.alertFound <;>
        cases hd : b.alertDisplayed <;>
          simp [hcc, hb, hd]
  · cases hcc : (creds.email && creds.password) <;>
      simp [hf, hcc, hform ef hf]

theorem click_book_now_no_raise (ne : Option PyExc)
    (h : ∀ e, ne = some e → e.caught = true) :
    ∃ bb, click_book_now ne = Except.ok bb := by
  rcases hx : ne with _ | ex
  · exact ⟨true, rfl⟩
  · exact ⟨false, by simp [click_book_now, h ex hx]⟩

theorem select_session_no_raise (c : SessionCriteria) (sb : SelectSessionBeh)
    (hp : ∀ e, sb.preExc = some e → e.caught = true)
    (hc : ∀ e, sb.clickExc = some e → e.caught = true) :
    ∃ p, select_session c sb = Except.ok p := by
  rcases hx : sb.preExc with _ | ex
  · obtain ⟨pp, hpp⟩ := sessionScan_never_raises c sb.clickExc hc sb.entries 0
    exact ⟨pp, by simp [select_session, hx, hpp]⟩
  · exact ⟨(false, none), by simp [select_session, hx, hp ex hx]⟩

theorem select_bike_no_raise (bb : SelectBikeBeh)
    (hp : ∀ e, bb.preExc = some e → e.caught = true)
    (hd : bb.successFound = true → bb.successDisplayed = true) :
    ∃ m, select_bike bb = Except.ok (some m) := by
  rcases hx : bb.preExc with _ | ex
  · by_cases hns : (bb.noSeriesFound && bb.noSeriesDisplayed) = true
    · exact ⟨noSeriesMsg, by simp [select_bike, hx, hns]⟩
    · by_cases hsf : bb.successFound = true
      · exact ⟨bb.successText, by simp [select_bike, hx, hns, hsf, hd hsf]⟩
      · exact ⟨unknownMsg, by simp [select_bike, hx, hns, hsf]⟩
  · exact ⟨"Error during seat selection: " ++ ex.text,
      by simp [select_bike, hx, hp ex hx]⟩

theorem clean_attempt_no_raise (creds : Creds) (crit : SessionCriteria)
    (b : AttemptBeh) (hc : cleanAttempt b) :
    ∀ e, attemptRes creds crit b ≠ AttemptRes.raised e := by
  obtain ⟨hget, hform, hnav, hpre, hclick, hbike, hdisp⟩ := hc
  intro e
  unfold attemptRes attemptBody stepChain
  rw [login_nf]
  obtain ⟨r, hr⟩ := loginRes_no_raise creds b.login hget hform
  obtain ⟨bn, hbn⟩ := click_book_now_no_raise b.navExc hnav
  obtain ⟨p, hbs⟩ := select_session_no_raise crit b.sess hpre hclick
  obtain ⟨m, hm2⟩ := select_bike_no_raise b.bike hbike hdisp
  rcases p with ⟨bs, ci⟩
  cases ht : truthy r <;> cases bn <;> cases bs <;>
    cases hsm : subMatch enrolledMarker m <;>
      simp [hr, hbn, hbs, hm2, ht, hsm]

theorem login_res_eq (creds : Creds) (b : LoginBeh) (d : Option Nat) (i : Nat) :
    (login_to_website creds b d i).1 = loginRes creds b := by
  rcases d with _ | dd
  · rw [login_nf]
  · rcases b with ⟨g, f, af, ad⟩
    rcases g with _ | eg
    · rcases f with _ | ef
      · cases af <;> cases ad <;> cases hc : creds.email <;> cases hp : creds.password <;>
          simp [login_to_website, loginRes, hc, hp]
      · cases ef <;> cases hc : creds.email <;> cases hp : creds.password <;>
          simp [login_to_website, loginRes, PyExc.caught, hc, hp]
    · simp [login_to_website, loginRes]

theorem count_gateChecks :
    ∀ k, ((List.range k).flatMap
        (fun i => [PollEvent.gateCheck i false, PollEvent.pollSleep 60])).countP
          isGateCheck = k := by
  intro k
  induction k with
  | zero => rfl
  | succ r ih =>
    rw [List.range_succ, List.flatMap_append, List.countP_append, ih]
    simp [List.countP_cons, isGateCheck]

/-! ## Claim theorems -/

/-- C2: Clock Gate correctness: for every current time `now` and every
configured window, `is_time_to_book` returns true if and only if
`now`'s weekday name equals the configured booking day, `now.hour`
equals the configured booking hour, and
`booking_minute_start ≤ now.minute ≤ booking_minute_end` — so the
boundary minutes `minute = start` and `minute = end` are included and
`minute = end + 1` is excluded. -/
theorem C2_is_time_to_book_iff (now : Now) (w : BookingWindow) :
    is_time_to_book now w = true ↔
      (now.weekdayName = w.booking_day ∧ now.hour = w.booking_hour ∧
        w.booking_minute_start ≤ now.minute ∧ now.minute ≤ w.booking_minute_end) :=
  ittb_char now w

/-- C9: hour-boundary limitation of the Clock Gate: for every
configured window whose minute range wraps past an hour boundary
(minute-range-start > minute-range-end), `is_time_to_book` returns
false for every current time — the hour field is matched exactly and
the minute test `start ≤ m ≤ end` is unsatisfiable, so the window
never fires for the wrapped-around minutes. -/
theorem C9_wrapped_window_never_fires (now : Now) (w : BookingWindow)
    (h : w.booking_minute_end < w.booking_minute_start) :
    is_time_to_book now w = false := by
  cases hb : is_time_to_book now w
  · rfl
  · obtain ⟨_, _, h1, h2⟩ := (ittb_char now w).1 hb
    omega

/-- C9 witness: a wrapped window with minute range 50..10 (start >
end) does not fire even at a time matching its day and hour. -/
theorem C9_wrapped_window_never_fires_witness :
    (10 : Nat) < 50 ∧
      is_time_to_book ⟨"Monday", 10, 55⟩ ⟨"Monday", 10, 50, 10⟩ = false :=
  ⟨by omega,
    C9_wrapped_window_never_fires ⟨"Monday", 10, 55⟩ ⟨"Monday", 10, 50, 10⟩
      (by decide)⟩

/-- C5: resource release on every exit path: for every behaviour,
credentials and `max_tries`, the acquire/release subsequence of the
run's event trace is exactly `acquire 0, release 0, acquire 1,
release 1, …` — one session per attempt, each released exactly once
(by the `finally: stop_driver()`) before the next attempt's session is
created or before `run` returns, with no session leaked across retries
and none released twice, on success, step failure and escaped-exception
exits alike. -/
theorem C5_release_exactly_once (creds : Creds) (crit : SessionCriteria)
    (beh : Nat → AttemptBeh) (N : Nat) :
    ((run creds crit beh N).1).filter isAcqRel =
      (List.range (countAttempts (run creds crit beh N).1)).flatMap
        (fun j => [Event.acquire j, Event.release j]) := by
  unfold run
  rw [runLoop_acqrel creds crit beh N 1 0]
  exact flatMap_congr_all _ _ _ (fun j => by rw [Nat.zero_add])

/-- C6 (code-bug evidence): a page state on which `select_bike`
returns a value outside the four documented classes: when the
`success-message` element exists but is not displayed, both inner try
blocks fall through every `return` and the method returns Python
`None` (its docstring promises a `str`). -/
theorem C6_select_bike_hidden_success_none :
    select_bike bikeHiddenSuccessBeh = Except.ok none := rfl

/-- C8: pre-window polling budget of the waiting loop in
`bot_runner.main`: for every `max_polls ≥ 1`, if the gate evaluates
false at every check, the loop exits with failure after exactly
`max_polls` false evaluations, with a 60-second sleep between each
pair of consecutive evaluations (the trace alternates check, sleep);
if the gate first evaluates true at check `k < max_polls`, the wait
ends with success at that moment — the true check is the final event,
with no further sleeping. -/
theorem C8_main_wait_polling (gate : Nat → Bool) (limit : Nat) (hl : 1 ≤ limit) :
    ((∀ i, gate i = false) →
      mainWaitLoop gate limit =
        ((List.range limit).flatMap
          (fun i => [PollEvent.gateCheck i false, PollEvent.pollSleep 60]),
         false) ∧
      ((mainWaitLoop gate limit).1).countP isGateCheck = limit)
  ∧ (∀ k, k < limit → (∀ j, j < k → gate j = false) → gate k = true →
      mainWaitLoop gate limit =
        ((List.range k).flatMap
            (fun i => [PollEvent.gateCheck i false, PollEvent.pollSleep 60]) ++
          [PollEvent.gateCheck k true],
         true) ∧
      ((mainWaitLoop gate limit).1).countP isGateCheck = k + 1) := by
  constructor
  · intro hg
    have h := waitFrom_all_false gate (limit - 1) 0 hg
    rw [(by omega : limit - 1 + 1 = limit)] at h
    simp only [Nat.zero_add] at h
    have h2 : mainWaitLoop gate limit =
        ((List.range limit).flatMap
          (fun i => [PollEvent.gateCheck i false, PollEvent.pollSleep 60]),
         false) := h
    refine ⟨h2, ?_⟩
    rw [h2]
    exact count_gateChecks limit
  · intro k hk hfalse htrue
    have h := waitFrom_opens gate k (limit - 1) 0 (by omega)
      (fun j hj => by simpa using hfalse j hj)
      (by simpa using htrue)
    simp only [Nat.zero_add] at h
    have h2 : mainWaitLoop gate limit =
        ((List.range k).flatMap
            (fun i => [PollEvent.gateCheck i false, PollEvent.pollSleep 60]) ++
          [PollEvent.gateCheck k true],
         true) := h
    refine ⟨h2, ?_⟩
    rw [h2]
    simp only [List.countP_append, count_gateChecks k]
    simp [List.countP_cons, isGateCheck]

/-- C8 witness: with a gate that is always false and `max_polls = 2`,
the loop performs exactly two false evaluations (sleeping 60 seconds
after each) and exits with failure. -/
theorem C8_main_wait_polling_witness :
    mainWaitLoop (fun _ => false) 2 =
      ([PollEvent.gateCheck 0 false, PollEvent.pollSleep 60,
        PollEvent.gateCheck 1 false, PollEvent.pollSleep 60], false) := by
  have h := ((C8_main_wait_polling (fun _ => false) 2 (by omega)).1 (fun i => rfl)).1
  rw [h]
  rfl

/-- C7: `select_session` first-match semantics: scanning the candidate
entries in document order, (1) when no exception occurs the method
clicks exactly the entry at `firstMatchIdx` — returning true with that
index clicked — and returns false clicking nothing when no entry
matches; (2) `firstMatchIdx` is the first index whose combined text
contains all of the configured activity, instructor and time as
substrings, every earlier entry failing the test; (3) a caught
exception before the scan (required elements not found within the
timeout) yields false with nothing clicked; (4) likewise a caught
exception while clicking the matched entry. -/
theorem C7_select_session_first_match (c : SessionCriteria)
    (b : SelectSessionBeh) :
    (b.preExc = none → b.clickExc = none →
      select_session c b =
        (match firstMatchIdx c b.entries with
         | some i => Except.ok (true, some i)
         | none => Except.ok (false, none)))
  ∧ (∀ i, firstMatchIdx c b.entries = some i →
      ∃ h : i < b.entries.length,
        matchesCriteria c (b.entries.get ⟨i, h⟩) = true ∧
        ∀ j (hj : j < b.entries.length), j < i →
          matchesCriteria c (b.entries.get ⟨j, hj⟩) = false)
  ∧ (∀ e, b.preExc = some e → e.caught = true →
      select_session c b = Except.ok (false, none))
  ∧ (b.preExc = none → ∀ e, b.clickExc = some e → e.caught = true →
      select_session c b = Except.ok (false, none)) := by
  refine ⟨?_, ?_, ?_, ?_⟩
  · intro hp hc
    unfold select_session
    rw [hp, hc]
    rw [sessionScan_clean c b.entries 0]
    rcases h : firstMatchIdx c b.entries with _ | k <;> simp [h]
  · exact fun i h => firstMatchIdx_spec c b.entries i h
  · intro e hp hcaught
    unfold select_session
    rw [hp]
    simp [hcaught]
  · intro hp e hc hcaught
    unfold select_session
    rw [hp, hc]
    exact sessionScan_click_caught c e hcaught b.entries 0

/-- C7 witness: among the three candidate entries of `sessListBeh`,
the first whose text contains "Spin", "Jane" and "6:00 PM" is the
entry at index 1: it is clicked and the method returns true. -/
theorem C7_select_session_first_match_witness :
    select_session critSpin sessListBeh = Except.ok (true, some 1) := by
  have h := (C7_select_session_first_match critSpin sessListBeh).1 rfl rfl
  rw [show firstMatchIdx critSpin sessListBeh.entries = some 1 from rfl] at h
  exact h

/-- C3 counterexample: a `TimeoutException` raised by
`driver.get(login_url)` during the login step — a browser error during
a step, but raised before the step's try block — is not caught at the
step boundary and propagates out of `run` as an exception (run's
`try/finally` has no `except` clause), so the claim fails as stated. -/
theorem C3_counterexample :
    (run credsOk critSpin (fun _ => getRaiseBeh) 3).2 =
      Except.error PyExc.timeout := rfl

/-- C3 (amended): errors raised inside each step's guarded region are
caught at the step boundary and downgraded to a failed-step result:
whenever, on every attempt, `driver.get` does not raise, every
exception raised during guarded element lookups is of a caught class
(`NoSuchElementException`/`TimeoutException`), and `select_bike` does
not return `None`, no exception escapes `run` — it returns a boolean
outcome. -/
theorem C3_guarded_errors_contained (creds : Creds) (crit : SessionCriteria)
    (beh : Nat → AttemptBeh) (N : Nat)
    (hclean : ∀ m, cleanAttempt (beh m)) :
    ∃ b, (run creds crit beh N).2 = Except.ok b := by
  unfold run
  exact runLoop_no_raise creds crit beh
    (fun m e => clean_attempt_no_raise creds crit (beh m) (hclean m) e) N 1 0

/-- C3 witness: with every guarded lookup either succeeding or raising
a caught exception class (here: the login form lookups time out on
every attempt), `run` returns a boolean outcome. -/
theorem C3_guarded_errors_contained_witness :
    cleanAttempt attemptFailBeh ∧
      ∃ b, (run credsOk critSpin (fun _ => attemptFailBeh) 2).2 = Except.ok b := by
  have hca : cleanAttempt attemptFailBeh := by
    refine ⟨rfl, ?_, ?_, ?_, ?_, ?_, ?_⟩
    · intro e he
      rw [show attemptFailBeh.login.formExc = some PyExc.timeout from rfl] at he
      injection he with h2
      subst h2
      rfl
    · intro e he
      exact absurd he (by simp [attemptFailBeh])
    · intro e he
      exact absurd he (by simp [attemptFailBeh])
    · intro e he
      exact absurd he (by simp [attemptFailBeh])
    · intro e he
      exact absurd he (by simp [attemptFailBeh])
    · intro h
      exact absurd h (by simp [attemptFailBeh])
  exact ⟨hca, C3_guarded_errors_contained credsOk critSpin
    (fun _ => attemptFailBeh) 2 (fun m => hca)⟩

/-- C4 counterexample: with the account email environment variable
absent and `max_tries = 2`, `run` performs 2 attempts (not zero),
each rediscovering and logging the missing credentials (reported
twice, not once), and only then reports final failure — there is no
pre-attempt hard stop. -/
theorem C4_counterexample :
    countAttempts (run credsNoEmail critSpin (fun _ => attemptPlainBeh) 2).1 = 2 ∧
    ((run credsNoEmail critSpin
        (fun _ => attemptPlainBeh) 2).1).countP isMissingLog = 2 ∧
    (run credsNoEmail critSpin (fun _ => attemptPlainBeh) 2).2 = Except.ok false :=
  ⟨rfl, rfl, rfl⟩

/-- C4 (amended): if either credential environment variable is absent
(and the login-page navigation itself does not raise), every attempt's
login rediscovers the missing credentials and returns false, so `run`
performs exactly `max_tries` attempts, logs the missing-credentials
error once per attempt (`max_tries` times in total), and ends in
failure; missing credentials are not a pre-attempt hard stop. -/
theorem C4_missing_creds_retries (creds : Creds) (crit : SessionCriteria)
    (beh : Nat → AttemptBeh) (N : Nat) (hN : 1 ≤ N)
    (hcred : (creds.email && creds.password) = false)
    (hget : ∀ m, (beh m).login.getExc = none) :
    (run creds crit beh N).2 = Except.ok false ∧
    countAttempts (run creds crit beh N).1 = N ∧
    ((run creds crit beh N).1).countP isMissingLog = N := by
  have hf : ∀ m, attemptRes creds crit (beh m) = AttemptRes.failed :=
    fun m => missing_creds_attempt_failed creds crit (beh m) hcred (hget m)
  have h := runLoop_all_fail creds crit beh hf N 1 0
  unfold run
  rw [h]
  refine ⟨rfl, ?_, ?_⟩
  · unfold countAttempts
    rw [List.countP_append, count_flatMap_failSeg]
    simp [isAttemptStart]
  · rw [List.countP_append, count_flatMap_missing creds beh _ _ hcred hget]
    simp [isMissingLog]

/-- C4 witness: with the email environment variable missing and
`max_tries = 1`, `run` performs one attempt, reports the missing
credentials once and fails. -/
theorem C4_missing_creds_retries_witness :
    (1 : Nat) ≤ 1 ∧ (credsNoEmail.email && credsNoEmail.password) = false ∧
    ((run credsNoEmail critSpin (fun _ => attemptPlainBeh) 1).2 = Except.ok false ∧
      countAttempts (run credsNoEmail critSpin (fun _ => attemptPlainBeh) 1).1 = 1 ∧
      ((run credsNoEmail critSpin
          (fun _ => attemptPlainBeh) 1).1).countP isMissingLog = 1) :=
  ⟨by decide, by decide,
    C4_missing_creds_retries credsNoEmail critSpin (fun _ => attemptPlainBeh) 1
      (by decide) (by decide) (fun m => rfl)⟩

/-- C10: `login_to_website` does not always return a boolean: when the
credentials are present, the guarded form region succeeds, and the
alert element exists on the page but is not displayed, the function
falls through every `return` statement and returns Python `None`
(regardless of driver state); the orchestrator's truthiness check
treats `None` like a failed login — the attempt's outcome is `failed`,
so it is retried; and `True` is returned only on the path where no
alert element is found after submitting the credentials. -/
theorem C10_login_none_fallthrough (creds : Creds) (crit : SessionCriteria)
    (b : LoginBeh)
    (hce : creds.email = true) (hcp : creds.password = true)
    (hg : b.getExc = none) (hf : b.formExc = none)
    (ha : b.alertFound = true) (hd : b.alertDisplayed = false) :
    (∀ d i, (login_to_website creds b d i).1 = Except.ok none) ∧
    truthy none = false ∧
    (∀ ab : AttemptBeh, ab.login = b →
      attemptRes creds crit ab = AttemptRes.failed) ∧
    (∀ (creds2 : Creds) (b2 : LoginBeh) (d : Option Nat) (i : Nat),
      (login_to_website creds2 b2 d i).1 = Except.ok (some true) →
      b2.alertFound = false) := by
  have hlr : loginRes creds b = Except.ok none := by
    unfold loginRes
    rw [hg, hf]
    simp [hce, hcp, ha, hd]
  refine ⟨?_, rfl, ?_, ?_⟩
  · intro d i
    rw [login_res_eq, hlr]
  · intro ab hab
    unfold attemptRes attemptBody stepChain
    rw [login_nf, hab, hlr]
    simp [truthy]
  · intro creds2 b2 d i hres
    rw [login_res_eq] at hres
    unfold loginRes at hres
    rcases hg2 : b2.getExc with _ | e2
    · simp only [hg2] at hres
      by_cases hcc : (creds2.email && creds2.password) = true
      · rcases hf2 : b2.formExc with _ | ef2
        · cases haf : b2.alertFound
          · rfl
          · cases had : b2.alertDisplayed <;>
              simp [hcc, hf2, haf, had] at hres
        · cases hcx : ef2.caught <;> simp [hcc, hf2, hcx] at hres
      · simp [hcc] at hres
    · simp [hg2] at hres

/-- C10 witness: the concrete hidden-alert login behaviour returns
`None` from `login_to_website`. -/
theorem C10_login_none_fallthrough_witness :
    (login_to_website credsOk ⟨none, none, true, false⟩ none 0).1 =
      Except.ok none :=
  (C10_login_none_fallthrough credsOk critSpin ⟨none, none, true, false⟩
    rfl rfl rfl rfl rfl rfl).1 none 0

/-- C1: Retry Orchestrator attempt counting and early stop.  Part 1:
if every attempt's `try` block ends in a failed outcome, `run`
performs exactly `max_tries` attempts — its trace is `max_tries`
failure segments, the segment of attempt `j + 1` starting with the
attempt log, the creation of fresh browser session `j` and the login
navigation on it (`failSeg`/`loginEvs` shape), then its release and
the inter-attempt sleep — and the final `booking_successful` outcome
is false.  Part 2: if the k-th attempt (1 ≤ k ≤ max_tries) is the
first whose `try` block yields the enrollment-success outcome, `run`
performs exactly `k` attempts — `k - 1` failure segments, then the
successful attempt on fresh session `k - 1`, with no (k+1)-th
attempt — and the final outcome is true. -/
theorem C1_run_attempt_counting (creds : Creds) (crit : SessionCriteria)
    (beh : Nat → AttemptBeh) (N : Nat) (hN : 1 ≤ N) :
    ((∀ m, attemptRes creds crit (beh m) = AttemptRes.failed) →
      run creds crit beh N =
        ((List.range N).flatMap (fun j => failSeg creds beh (j + 1) j) ++
          [Event.logFinalFailure], Except.ok false) ∧
      countAttempts (run creds crit beh N).1 = N)
  ∧ (∀ k, 1 ≤ k → k ≤ N →
      (∀ j, 1 ≤ j → j < k → attemptRes creds crit (beh j) = AttemptRes.failed) →
      attemptRes creds crit (beh k) = AttemptRes.success →
      run creds crit beh N =
        ((List.range (k - 1)).flatMap (fun j => failSeg creds beh (j + 1) j) ++
          Event.attemptStart k ::
            (loginEvs creds (beh k).login (k - 1) ++ [Event.release (k - 1)]),
         Except.ok true) ∧
      countAttempts (run creds crit beh N).1 = k) := by
  constructor
  · intro hf
    have h := runLoop_all_fail creds crit beh hf N 1 0
    have h2 : run creds crit beh N =
        ((List.range N).flatMap (fun j => failSeg creds beh (j + 1) j) ++
          [Event.logFinalFailure], Except.ok false) := by
      unfold run
      rw [h]
      rw [flatMap_congr_all (List.range N)
        (fun j => failSeg creds beh (1 + j) (0 + j))
        (fun j => failSeg creds beh (j + 1) j)
        (fun j => by
          have e1 : 1 + j = j + 1 := by omega
          simp only [e1, Nat.zero_add])]
    refine ⟨h2, ?_⟩
    rw [h2]
    unfold countAttempts
    rw [List.countP_append, count_flatMap_failSeg]
    simp [isAttemptStart]
  · intro k hk1 hkN hfail hsucc
    have h := runLoop_success_at creds crit beh (k - 1) N 1 0 (by omega)
      (fun j hj => by
        have := hfail (j + 1) (by omega) (by omega)
        simpa [(by omega : 1 + j = j + 1)] using this)
      (by simpa [(by omega : 1 + (k - 1) = k)] using hsucc)
    simp only [Nat.zero_add] at h
    have hix : 1 + (k - 1) = k := by omega
    rw [hix] at h
    have h2 : run creds crit beh N =
        ((List.range (k - 1)).flatMap (fun j => failSeg creds beh (j + 1) j) ++
          Event.attemptStart k ::
            (loginEvs creds (beh k).login (k - 1) ++ [Event.release (k - 1)]),
         Except.ok true) := by
      unfold run
      rw [h]
      rw [flatMap_congr_all (List.range (k - 1))
        (fun j => failSeg creds beh (1 + j) j)
        (fun j => failSeg creds beh (j + 1) j)
        (fun j => by
          have e1 : 1 + j = j + 1 := by omega
          simp only [e1])]
    refine ⟨h2, ?_⟩
    rw [h2]
    unfold countAttempts
    rw [List.countP_append, count_flatMap_failSeg]
    simp [List.countP_cons, List.countP_append, isAttemptStart,
      loginEvs_count_start]
    omega

/-- C1 witness: part 1 at a login-always-fails behaviour with
`max_tries = 3` (exactly 3 attempts, each a fresh session, outcome
false), and part 2 at a behaviour succeeding from the 2nd attempt on
with `max_tries = 3` (exactly 2 attempts, outcome true, no 3rd
attempt). -/
theorem C1_run_attempt_counting_witness :
    ((run credsOk critSpin (fun _ => attemptFailBeh) 3).2 = Except.ok false ∧
      countAttempts (run credsOk critSpin (fun _ => attemptFailBeh) 3).1 = 3) ∧
    ((run credsOk critSpin
        (fun n => if n ≤ 1 then attemptFailBeh else attemptOkBeh) 3).2 =
          Except.ok true ∧
      countAttempts (run credsOk critSpin
        (fun n => if n ≤ 1 then attemptFailBeh else attemptOkBeh) 3).1 = 2) := by
  constructor
  · have h := (C1_run_attempt_counting credsOk critSpin (fun _ => attemptFailBeh) 3
      (by omega)).1 (fun m => rfl)
    exact ⟨by rw [h.1], h.2⟩
  · have h := (C1_run_attempt_counting credsOk critSpin
      (fun n => if n ≤ 1 then attemptFailBeh else attemptOkBeh) 3 (by omega)).2 2
      (by omega) (by omega)
      (fun j hj1 hj2 => by
        have : j = 1 := by omega
        subst this
        rfl)
      rfl
    exact ⟨by rw [h.1], h.2⟩

end SpinBooking
